import Mathlib

/-!
Verification of the AI-chat-downloader extraction core.

A shallow embedding of the scraping/extraction core of the repository
(`src/utils/browser_fetch.py` and `src/utils/claude_stealth_scraper.py`),
together with theorems settling the frozen claims about it.

Python strings are modelled as `List Char`; the direction-detection
functions, challenge detection, URL validation, the retry/fingerprint
loop, the tier-2 extraction merge and the Markdown assembly are each
translated from the source.  Browser interaction (navigation, selector
waits) is abstracted into explicit inputs (HTTP status, page content,
attempt outcomes); everything that is pure string/list computation in the
source is embedded as the corresponding pure computation here.
-/

namespace AIChat

/-- Whitespace recognised by the model of the Python functions `str.strip`, `str.split`
and the regex class `\s` (the ASCII whitespace subset; these are the only
whitespace characters exercised by this development). -/
def isPySpace (c : Char) : Bool :=
  c = ' ' || c = '\t' || c = '\n' || c = '\r' || c = '\x0b' || c = '\x0c'

/-- Model of Python `str.strip()`: drop whitespace from both ends. -/
def pyStrip (l : List Char) : List Char :=
  ((l.dropWhile isPySpace).reverse.dropWhile isPySpace).reverse

/-- Model of `unicodedata.bidirectional`, restricted to the Unicode blocks
exercised by this development (ASCII, Hebrew, Arabic/Persian).  Characters
outside the covered ranges are mapped to the neutral class "ON"; the
algorithms below only distinguish strong-RTL / strong-LTR / non-strong
classes, so this restriction is faithful on every character they are
applied to in the theorems of this file. -/
def bidi (c : Char) : String :=
  let n := c.toNat
  if (0x41 ≤ n ∧ n ≤ 0x5A) ∨ (0x61 ≤ n ∧ n ≤ 0x7A) then "L"
  else if 0x30 ≤ n ∧ n ≤ 0x39 then "EN"
  else if n = 0x20 then "WS"
  else if n = 0x09 then "S"
  else if n = 0x0A ∨ n = 0x0D then "B"
  else if n = 0x2B ∨ n = 0x2D then "ES"
  else if n = 0x2C ∨ n = 0x2E ∨ n = 0x2F ∨ n = 0x3A then "CS"
  else if n = 0x23 ∨ n = 0x24 ∨ n = 0x25 then "ET"
  else if (0x05D0 ≤ n ∧ n ≤ 0x05EA) ∨ (0x05F0 ≤ n ∧ n ≤ 0x05F4) then "R"
  else if 0x0620 ≤ n ∧ n ≤ 0x064A then "AL"
  else if 0x064B ≤ n ∧ n ≤ 0x065F then "NSM"
  else if 0x0660 ≤ n ∧ n ≤ 0x0669 then "AN"
  else if 0x06F0 ≤ n ∧ n ≤ 0x06F9 then "EN"
  else if 0x066E ≤ n ∧ n ≤ 0x06D3 then "AL"
  else if (0xFB50 ≤ n ∧ n ≤ 0xFDFF) ∨ (0xFE70 ≤ n ∧ n ≤ 0xFEFF) then "AL"
  else "ON"

/-- The set `_RTL_BIDI` from `browser_fetch.py`. -/
def RTL_BIDI : List String := ["R", "AL", "RLE", "RLO", "ALM", "RLI"]

/-- The set `_LTR_BIDI` from `browser_fetch.py`. -/
def LTR_BIDI : List String := ["L", "LRE", "LRO", "LRI"]

/-- The set `_WEAK_BIDI` from `browser_fetch.py`. -/
def WEAK_BIDI : List String := ["EN", "ES", "ET", "AN", "CS"]

/-- The list `_RTL_SCRIPT_RANGES` from `browser_fetch.py` (inclusive code-point
ranges). -/
def RTL_SCRIPT_RANGES : List (Nat × Nat) :=
  [(0x0600, 0x06FF), (0x0590, 0x05FF), (0x0700, 0x074F), (0x0750, 0x077F),
   (0x0780, 0x07BF), (0x07C0, 0x07FF), (0x0800, 0x083F), (0x0840, 0x085F),
   (0x08A0, 0x08FF), (0xFB1D, 0xFB4F), (0xFB50, 0xFDFF), (0xFE70, 0xFEFF)]

/-- Function `_is_rtl_script` from `browser_fetch.py`. -/
def isRtlScript (c : Char) : Bool :=
  RTL_SCRIPT_RANGES.any (fun r => r.1 ≤ c.toNat && c.toNat ≤ r.2)

/-- Function `_first_strong_direction` from `browser_fetch.py`: scan characters in
order; first strong-RTL gives "rtl", first strong-LTR gives "ltr";
default "ltr". -/
def firstStrongDirection : List Char → String
  | [] => "ltr"
  | c :: rest =>
    if RTL_BIDI.contains (bidi c) then "rtl"
    else if LTR_BIDI.contains (bidi c) then "ltr"
    else firstStrongDirection rest

/-- The (rtl, ltr) character tallies of `_character_counting_direction`. -/
def countingCounts : List Char → Nat × Nat
  | [] => (0, 0)
  | c :: rest =>
    let p := countingCounts rest
    if RTL_BIDI.contains (bidi c) || isRtlScript c then (p.1 + 1, p.2)
    else if LTR_BIDI.contains (bidi c) then (p.1, p.2 + 1)
    else p

/-- Function `_character_counting_direction` from `browser_fetch.py`. -/
def characterCountingDirection (text : List Char) : String :=
  let p := countingCounts text
  if p.1 > p.2 then "rtl"
  else if p.2 > p.1 then "ltr"
  else firstStrongDirection text

/-- The per-word (word_rtl, word_ltr) tallies of `_weighted_direction`:
strong-RTL or RTL-script characters weigh 2, strong-LTR characters weigh 1,
weak and neutral characters contribute nothing. -/
def wordCounts : List Char → Nat × Nat
  | [] => (0, 0)
  | c :: rest =>
    let p := wordCounts rest
    if RTL_BIDI.contains (bidi c) || isRtlScript c then (p.1 + 2, p.2)
    else if LTR_BIDI.contains (bidi c) then (p.1, p.2 + 1)
    else p

/-- Model of Python `str.split()` (split on whitespace runs, dropping
empty tokens); accumulator holds the current word reversed. -/
def splitWSAux : List Char → List Char → List (List Char)
  | [], acc => if acc.isEmpty then [] else [acc.reverse]
  | c :: rest, acc =>
    if isPySpace c then
      if acc.isEmpty then splitWSAux rest []
      else acc.reverse :: splitWSAux rest []
    else splitWSAux rest (c :: acc)

/-- Model of Python `str.split()`. -/
def splitWS (l : List Char) : List (List Char) := splitWSAux l []

/-- The (rtl_weight, ltr_weight) running totals of `_weighted_direction`
over the word list, with the +1 bonus added for RTL-dominant words. -/
def weightedTotals (words : List (List Char)) : Nat × Nat :=
  words.foldl
    (fun acc w =>
      let p := wordCounts w
      if p.1 > p.2 then (acc.1 + p.1 + 1, acc.2)
      else if p.2 > p.1 then (acc.1, acc.2 + p.2)
      else acc)
    (0, 0)

/-- Function `_weighted_direction` from `browser_fetch.py`: word-level weighted
tallies, plus a +2 RTL bonus when the stripped text ends in terminal
punctuation and its first character is strong-RTL; ties go to "ltr". -/
def weightedDirection (text : List Char) : String :=
  let totals := weightedTotals (splitWS text)
  let stripped := pyStrip text
  let endsTerm : Bool :=
    match stripped.getLast? with
    | some c => c = '!' || c = '?' || c = '.'
    | none => false
  let firstRtl : Bool :=
    match stripped.head? with
    | some c => RTL_BIDI.contains (bidi c)
    | none => false
  let rtlWeight := if endsTerm && firstRtl then totals.1 + 2 else totals.1
  if rtlWeight > totals.2 then "rtl" else "ltr"

/-- Model of `re.sub(r"<[^>]+>", " ", text)`: each maximal `<`…`>` group
with at least one non-`>` character inside is replaced by a single space.
The state holds the pending tag body (reversed) after an unmatched `<`. -/
def stripTagsAux : List Char → Option (List Char) → List Char
  | [], none => []
  | [], some buf => '<' :: buf.reverse
  | c :: rest, none =>
    if c = '<' then stripTagsAux rest (some [])
    else c :: stripTagsAux rest none
  | c :: rest, some buf =>
    if c = '>' then
      if buf.isEmpty then '<' :: '>' :: stripTagsAux rest none
      else ' ' :: stripTagsAux rest none
    else stripTagsAux rest (some (c :: buf))

/-- Tag removal as performed at the top of `_smart_direction_detection`. -/
def stripTags (l : List Char) : List Char := stripTagsAux l none

/-- Model of `re.sub(r"\s+", " ", text)`: collapse each whitespace run into
a single space; the flag records whether the previous character was
whitespace. -/
def collapseWSAux : List Char → Bool → List Char
  | [], _ => []
  | c :: rest, prevSpace =>
    if isPySpace c then
      if prevSpace then collapseWSAux rest true
      else ' ' :: collapseWSAux rest true
    else c :: collapseWSAux rest false

/-- Whitespace collapsing as performed in `_smart_direction_detection`. -/
def collapseWS (l : List Char) : List Char := collapseWSAux l false

/-- The `clean_text` computed by `_smart_direction_detection`: strip
HTML-like tags, collapse whitespace, strip the ends. -/
def cleanText (text : List Char) : List Char :=
  pyStrip (collapseWS (stripTags text))

/-- Function `_smart_direction_detection` from `browser_fetch.py`: the public
`classify(text, method)` contract of the direction classifier. -/
def smartDirectionDetection (text : List Char) (method : String) : String :=
  if text = [] ∨ pyStrip text = [] then "ltr"
  else if cleanText text = [] then "ltr"
  else if method = "first-strong" then firstStrongDirection (cleanText text)
  else if method = "counting" then characterCountingDirection (cleanText text)
  else if method = "weighted" then weightedDirection (cleanText text)
  else
    if (cleanText text).length < 10 then firstStrongDirection (cleanText text)
    else if (cleanText text).any isRtlScript = true ∧
        (cleanText text).any (fun c => LTR_BIDI.contains (bidi c)) = true then
      weightedDirection (cleanText text)
    else characterCountingDirection (cleanText text)

/-! ## Challenge detection -/

/-- The `security_indicators` list of `scrape_claude_share`
(`browser_fetch.py`, lines 770-783). -/
def securityIndicatorsBF : List (List Char) :=
  ["Verify you are human".data,
   "checking if the site connection is secure".data,
   "This process is automatic".data,
   "DDoS protection by Cloudflare".data,
   "Just a moment".data,
   "Ray ID:".data,
   "cloudflare-static".data,
   "cf-browser-verification".data,
   "challenge-platform".data,
   "Access denied".data,
   "Forbidden".data,
   "Please turn JavaScript on and reload the page".data]

/-- The `normal_popups` list of `scrape_claude_share`
(`browser_fetch.py`, lines 786-792). -/
def normalPopups : List (List Char) :=
  ["Cookie settings".data,
   "We use cookies".data,
   "customize or personalize your experience".data,
   "Accept All Cookies".data,
   "Reject All Cookies".data]

/-- Flag `has_security_indicators` in `scrape_claude_share`: some security
indicator occurs as a substring of the page content. -/
def hasSecurityIndicators (content : List Char) : Bool :=
  securityIndicatorsBF.any (fun s => decide (s <:+: content))

/-- Flag `has_normal_popups` in `scrape_claude_share`: some benign cookie-popup
indicator occurs as a substring of the page content. -/
def hasNormalPopups (content : List Char) : Bool :=
  normalPopups.any (fun s => decide (s <:+: content))

/-- Flag `challenge_detected` in `scrape_claude_share` (`browser_fetch.py`,
line 802): security indicators present and no benign popup present. -/
def challengeDetectedBF (content : List Char) : Bool :=
  hasSecurityIndicators content && !hasNormalPopups content

/-- The `security_indicators` list of `detect_security_challenge`
(`claude_stealth_scraper.py`, lines 266-290). -/
def securityIndicatorsSS : List (List Char) :=
  ["Verify you are human".data,
   "security of your connection".data,
   "Enable JavaScript and cookies".data,
   "Cloudflare".data,
   "Please enable JavaScript".data,
   "Access denied".data,
   "Ray ID:".data,
   "cloudflare-static".data,
   "cf-browser-verification".data,
   "challenge-platform".data,
   "checking if the site connection is secure".data,
   "This process is automatic".data,
   "DDoS protection by Cloudflare".data,
   "Just a moment".data,
   "Please turn JavaScript on".data,
   "cf-ray-".data,
   "__cf_bm".data,
   "_cf_chl_opt".data,
   "Please complete the security check".data,
   "Verifying your browser".data,
   "Loading...".data,
   "One moment please...".data,
   "Checking your browser before accessing".data]

/-- ASCII lowercasing, modelling Python `str.lower()` on the ASCII
indicator strings compared by `detect_security_challenge`. -/
def lowerChars (l : List Char) : List Char := l.map Char.toLower

/-- Function `detect_security_challenge` from `claude_stealth_scraper.py`
(lines 261-322).  The browser-dependent quantities are explicit inputs:
`content` is `page.content()`, `innerTextLen` is
`document.body.innerText.length` (`none` when the evaluation raises, which
the source swallows), and `challengeElems` is the number of elements
matched by the challenge-specific selectors (`none` when those queries
raise).  Returns the `(is_challenged, reason)` pair. -/
def detectSecurityChallenge (content : List Char) (innerTextLen : Option Nat)
    (challengeElems : Option Nat) : Bool × List Char :=
  match securityIndicatorsSS.find?
      (fun s => decide (lowerChars s <:+: lowerChars content)) with
  | some s => (true, "Security challenge detected: ".data ++ s)
  | none =>
    match innerTextLen with
    | some n =>
      if n < 150 then (true, "Minimal content detected - possible challenge page".data)
      else
        match challengeElems with
        | some k =>
          if k > 0 then (true, "Challenge element found".data)
          else (false, "No security challenge detected".data)
        | none => (false, "No security challenge detected".data)
    | none =>
      match challengeElems with
      | some k =>
        if k > 0 then (true, "Challenge element found".data)
        else (false, "No security challenge detected".data)
      | none => (false, "No security challenge detected".data)

/-! ## URL validation -/

/-- First accepted ChatGPT prefix of the validation regex in
`scrape_share` (`browser_fetch.py`, line 463). -/
def gptPrefix1 : List Char := "https://chat.openai.com/share/".data

/-- Second accepted ChatGPT prefix of the validation regex. -/
def gptPrefix2 : List Char := "https://chatgpt.com/share/".data

/-- The Claude prefix checked by `scrape_claude_share`
(`browser_fetch.py`, line 647) and `scrape_claude_share_advanced`
(`claude_stealth_scraper.py`, line 548). -/
def claudePrefix : List Char := "https://claude.ai/share/".data

/-- Model of
`re.match(r"https://(chat\.openai\.com|chatgpt\.com)/share/.+", link)`:
one of the two prefixes followed by at least one character other than a
newline (regex `.` does not match `\n`). -/
def validChatGPTLink (link : List Char) : Bool :=
  [gptPrefix1, gptPrefix2].any fun p =>
    p.isPrefixOf link &&
      match link.drop p.length with
      | [] => false
      | c :: _ => c ≠ '\n'

/-- The Claude URL validation: `link.startswith("https://claude.ai/share/")`. -/
def validClaudeLink (link : List Char) : Bool :=
  claudePrefix.isPrefixOf link

/-- The entry of `scrape_share`: URL validation is its first statement, so
`.error` means the function raises before a session or browser exists and
`.ok` means control proceeds to the browser launch. -/
def scrapeShareEntry (link : List Char) : Except (List Char) Unit :=
  if validChatGPTLink link then .ok ()
  else .error "Invalid ChatGPT share link format. Please ensure it is a valid share URL.".data

/-- The entry of `scrape_claude_share`: URL validation is its first
statement; `.ok` means control proceeds to fingerprint generation and the
retry loop. -/
def scrapeClaudeShareEntry (link : List Char) : Except (List Char) Unit :=
  if validClaudeLink link then .ok ()
  else .error "Invalid Claude share link format. Please ensure it is a valid Claude share URL.".data

/-- Modelled from the spec: the accepted platform URL shapes of claim C4 -
`https://chatgpt.com/share/<id>`, `https://chat.openai.com/share/<id>` or
`https://claude.ai/share/<id>` where the identifier `<id>` has non-zero
length.  Used only to compare the specified precondition with the implemented
validators. -/
def specAcceptedShape (link : List Char) : Bool :=
  [gptPrefix1, gptPrefix2, claudePrefix].any fun p =>
    p.isPrefixOf link && !(link.drop p.length).isEmpty

/-! ## Navigation status handling (per attempt) -/

/-- How one attempt of `scrape_claude_share` proceeds after `page.goto`
returns (`browser_fetch.py`, lines 749-756): where the attempt goes next.
`abortAttempt` is the `raise` that hands control to the retry policy;
`challengeCheck` means the attempt continues into human-behaviour
simulation and challenge detection. -/
inductive NavNext
  | abortAttempt
  | challengeCheck
deriving DecidableEq, Repr

/-- The status check of `scrape_claude_share`: only a 403 response raises;
any other status (including other statuses ≥ 400) lets the same attempt
continue to challenge detection.  `none` models a null response object. -/
def bfAfterNavigation (status : Option Nat) : NavNext :=
  match status with
  | some s =>
    if s ≥ 400 then
      if s = 403 then .abortAttempt else .challengeCheck
    else .challengeCheck
  | none => .challengeCheck

/-- The status check of `scrape_claude_share_advanced`
(`claude_stealth_scraper.py`, lines 638-643): only a 403 skips to the next
attempt (`continue`); any other status proceeds within the attempt. -/
def ssAfterNavigation (status : Option Nat) : NavNext :=
  match status with
  | some s =>
    if s ≥ 400 then
      if s = 403 then .abortAttempt else .challengeCheck
    else .challengeCheck
  | none => .challengeCheck

/-! ## Retry loop and fingerprint lifecycle

Fingerprints are abstracted to their generation index (0 for the first
fingerprint generated in a call, 1 for the second, ...); the body of one
attempt is abstracted to its outcome `resolve attempt fp` (`true` when the
attempt succeeds, `false` when its security challenge stays unresolved).
What is kept exact is the placement of fingerprint generation relative to
the retry loop, the attempt count, and the terminal behaviour. -/

/-- Outcome of a whole fetch call: success, or the terminal exception after
the attempt budget is exhausted. -/
inductive FetchOutcome
  | success
  | terminalError
deriving DecidableEq, Repr

/-- Observable fingerprint behaviour of one fetch call: how many
fingerprints were generated, which fingerprint each attempt used (in
attempt order), and the final outcome. -/
structure RetryTrace where
  generations : Nat
  attemptFps : List Nat
  outcome : FetchOutcome
deriving DecidableEq, Repr

/-- The retry loop of `scrape_claude_share` (`browser_fetch.py`,
lines 659-994) with the fingerprint `fp` fixed: recursion over the
remaining attempts; a failing attempt with no attempts left raises the
terminal error. -/
def bfLoop (resolve : Nat → Nat → Bool) (fp attempt : Nat) :
    Nat → List Nat × FetchOutcome
  | 0 => ([], .terminalError)
  | remaining + 1 =>
    if resolve attempt fp then ([fp], .success)
    else if remaining = 0 then ([fp], .terminalError)
    else
      let r := bfLoop resolve fp (attempt + 1) remaining
      (fp :: r.1, r.2)

/-- Function `scrape_claude_share`: the fingerprint is generated once, before the
retry loop (`browser_fetch.py`, line 653), and every one of the
`max_retries = 3` attempts uses it. -/
def scrapeClaudeShareRetry (resolve : Nat → Nat → Bool) : RetryTrace :=
  let fp := 0
  let r := bfLoop resolve fp 0 3
  ⟨1, r.1, r.2⟩

/-- The retry loop of `scrape_claude_share_advanced`
(`claude_stealth_scraper.py`, lines 553-764): a fresh fingerprint is
generated inside each attempt (line 560), so the generation counter
advances once per attempt. -/
def advLoop (resolve : Nat → Nat → Bool) :
    Nat → Nat → Nat → Nat × List Nat × FetchOutcome
  | gens, _, 0 => (gens, [], .terminalError)
  | gens, attempt, remaining + 1 =>
    let fp := gens
    if resolve attempt fp then (gens + 1, [fp], .success)
    else if remaining = 0 then (gens + 1, [fp], .terminalError)
    else
      let r := advLoop resolve (gens + 1) (attempt + 1) remaining
      (r.1, fp :: r.2.1, r.2.2)

/-- Function `scrape_claude_share_advanced` with a given `max_retries` budget. -/
def scrapeClaudeShareAdvancedRetry (resolve : Nat → Nat → Bool)
    (maxRetries : Nat) : RetryTrace :=
  let r := advLoop resolve 0 0 maxRetries
  ⟨r.1, r.2.1, r.2.2⟩

/-! ## Claude extraction, tier 2 (separate user / assistant queries)

An element of the parsed document is reduced to what tier 2 of the
extraction consults: its document position, the source line reported by
the HTML parser, whether it is a user-marker element
(`data-testid="user-message"`) or an assistant-style-class element
(`font-claude-message` and friends), and its stripped text. -/

/-- Which of the two tier-2 queries matches the element. -/
inductive CRole
  | user
  | assistant
deriving DecidableEq, Repr

/-- A document element as consulted by tier 2 of the Claude extraction. -/
structure CElem where
  docPos : Nat
  sourceline : Nat
  role : CRole
  text : List Char
deriving DecidableEq, Repr

/-- The sort key of `get_element_order` in `scrape_claude_share`
(`browser_fetch.py`, lines 1054-1065): the field `sourceline` of the element.
The Python sort is stable, as is `List.insertionSort`. -/
def bySourceline (a b : CElem) : Prop := a.sourceline ≤ b.sourceline

instance : DecidableRel bySourceline := fun a b => Nat.decLe a.sourceline b.sourceline

instance : IsTotal CElem bySourceline := ⟨fun a b => Nat.le_total a.sourceline b.sourceline⟩

instance : IsTrans CElem bySourceline := ⟨fun _ _ _ => Nat.le_trans⟩

/-- Tier 2 of `scrape_claude_share` (`browser_fetch.py`, lines 1034-1082):
collect user-marker elements, then assistant-class elements (each query in
document order), sort the concatenation by `sourceline`, then keep the
elements with non-empty text. -/
def bfStrategy2 (doc : List CElem) : List CElem :=
  (List.insertionSort bySourceline
      (doc.filter (fun e => decide (e.role = CRole.user)) ++
        doc.filter (fun e => decide (e.role = CRole.assistant)))).filter
    (fun e => decide (e.text ≠ []))

/-- Tier 2 of `extract_claude_messages` (`claude_stealth_scraper.py`,
lines 415-452): user-marker elements (text length > 5) are appended first,
then assistant-class elements (text length > 5, skipping texts already
collected), with no re-sort.  The seven assistant selectors are modelled
as one query returning the assistant-class elements in document order. -/
def ssStrategy2 (doc : List CElem) : List CElem :=
  doc.foldl
    (fun acc e =>
      if e.role = CRole.assistant ∧ 5 < e.text.length ∧
          ¬ acc.any (fun m => decide (m.text = e.text)) then
        acc ++ [e]
      else acc)
    (doc.filter (fun e => decide (e.role = CRole.user) && decide (5 < e.text.length)))

/-! ## Markdown assembly for Claude (`browser_fetch.py`, lines 1120-1165) -/

/-- An extracted message as assembled into Markdown. -/
structure Msg where
  isUser : Bool
  content : List Char
deriving DecidableEq, Repr

/-- Function `_claude_role` from `browser_fetch.py`. -/
def claudeRole (isUser : Bool) : List Char :=
  if isUser then "🔵 **User:**".data else "🟡 **Claude:**".data

/-- One message block of the Markdown assembly in `scrape_claude_share`:
direction wrapper when `includeDirection`, speaker label when
`includeSpeakers`, then the `---` separator. -/
def formatClaudeBlock (includeDirection includeSpeakers : Bool)
    (directionMethod : String) (m : Msg) : List Char :=
  let formatted :=
    if includeDirection then
      "<div dir=\"".data ++
        (smartDirectionDetection m.content directionMethod).data ++
        "\">\n".data ++ m.content ++ "\n</div>".data
    else m.content
  if includeSpeakers then
    claudeRole m.isUser ++ "\n\n".data ++ formatted ++ "\n\n---\n".data
  else formatted ++ "\n\n---\n".data

/-- Model of `"\n".join(blocks)`. -/
def joinNl : List (List Char) → List Char
  | [] => []
  | [b] => b
  | b :: rest => b ++ '\n' :: joinNl rest

/-- The `options_info` entries of the metadata header. -/
def claudeOptionsInfo (includeDirection includeSpeakers : Bool)
    (directionMethod : String) : List (List Char) :=
  (if includeDirection then
    ["RTL/LTR detection enabled (method: ".data ++ directionMethod.data ++ ")".data]
   else []) ++
  (if includeSpeakers then ["Speaker identification enabled".data] else [])

/-- The `options_text` of the metadata header: the comma-joined active
options in parentheses, or `" (Plain text mode)"` when no option is on. -/
def claudeOptionsText (includeDirection includeSpeakers : Bool)
    (directionMethod : String) : List Char :=
  if claudeOptionsInfo includeDirection includeSpeakers directionMethod = [] then
    " (Plain text mode)".data
  else
    " (".data ++
      List.intercalate ", ".data
        (claudeOptionsInfo includeDirection includeSpeakers directionMethod) ++
      ")".data

/-- The metadata header of the `scrape_claude_share` output (`link` is the
share URL, `ts` the formatted generation time). -/
def claudeMetadata (link ts : List Char) (includeDirection includeSpeakers : Bool)
    (directionMethod : String) : List Char :=
  "# Claude Conversation\n\n*Downloaded from: ".data ++ link ++
    "*\n*Generated on: ".data ++ ts ++ "*\n*Options:".data ++
    claudeOptionsText includeDirection includeSpeakers directionMethod ++
    "*\n\n---\n\n".data

/-- The full Markdown returned by a successful `scrape_claude_share`:
metadata header followed by the newline-joined message blocks. -/
def scrapeClaudeShareMarkdown (msgs : List Msg)
    (includeDirection includeSpeakers : Bool) (directionMethod : String)
    (link ts : List Char) : List Char :=
  claudeMetadata link ts includeDirection includeSpeakers directionMethod ++
    joinNl (msgs.map (formatClaudeBlock includeDirection includeSpeakers directionMethod))

/-! Helper lemmas about the text-cleaning pipeline. -/

lemma pyStrip_nil_all_space {t : List Char} (h : pyStrip t = []) :
    ∀ c ∈ t, isPySpace c = true := by
  unfold pyStrip at h
  rw [List.reverse_eq_nil_iff, List.dropWhile_eq_nil_iff] at h
  intro c hc
  rcases List.mem_append.mp
      (by rw [List.takeWhile_append_dropWhile]; exact hc :
        c ∈ t.takeWhile isPySpace ++ t.dropWhile isPySpace) with hmem | hmem
  · exact List.mem_takeWhile_imp hmem
  · exact h c (List.mem_reverse.mpr hmem)

lemma stripTagsAux_no_lt {t : List Char} (h : '<' ∉ t) :
    stripTagsAux t none = t := by
  induction t with
  | nil => rfl
  | cons c rest ih =>
    have hc : c ≠ '<' := fun hc => h (hc ▸ List.mem_cons_self c rest)
    have hrest : '<' ∉ rest := fun hm => h (List.mem_cons_of_mem c hm)
    simp [stripTagsAux, hc, ih hrest]

lemma collapseWSAux_all_space_true {t : List Char}
    (h : ∀ c ∈ t, isPySpace c = true) : collapseWSAux t true = [] := by
  induction t with
  | nil => rfl
  | cons c rest ih =>
    simp [collapseWSAux, h c (List.mem_cons_self c rest),
      ih fun d hd => h d (List.mem_cons_of_mem c hd)]

lemma cleanText_of_strip_nil {t : List Char} (h : pyStrip t = []) :
    cleanText t = [] := by
  have hall := pyStrip_nil_all_space h
  have hlt : '<' ∉ t := fun hm => by simpa [isPySpace] using hall '<' hm
  unfold cleanText stripTags
  rw [stripTagsAux_no_lt hlt]
  cases t with
  | nil => rfl
  | cons c rest =>
    unfold collapseWS collapseWSAux
    rw [if_pos (hall c (List.mem_cons_self c rest)),
      collapseWSAux_all_space_true fun d hd => hall d (List.mem_cons_of_mem c hd)]
    rfl

lemma cleanText_nil_of_empty_or_space {t : List Char}
    (h : t = [] ∨ pyStrip t = []) : cleanText t = [] := by
  rcases h with h | h
  · subst h; rfl
  · exact cleanText_of_strip_nil h

/-! Range lemmas: every branch of the classifier returns "rtl" or "ltr". -/

lemma ite_rtl_ltr (c : Prop) [Decidable c] :
    (if c then "rtl" else "ltr") = ("rtl" : String) ∨
      (if c then "rtl" else "ltr") = ("ltr" : String) := by
  split
  · left; rfl
  · right; rfl

lemma firstStrongDirection_cases (t : List Char) :
    firstStrongDirection t = "rtl" ∨ firstStrongDirection t = "ltr" := by
  induction t with
  | nil => right; rfl
  | cons c rest ih =>
    unfold firstStrongDirection
    by_cases h1 : RTL_BIDI.contains (bidi c) = true
    · rw [if_pos h1]; left; rfl
    · rw [if_neg h1]
      by_cases h2 : LTR_BIDI.contains (bidi c) = true
      · rw [if_pos h2]; right; rfl
      · rw [if_neg h2]; exact ih

lemma characterCountingDirection_cases (t : List Char) :
    characterCountingDirection t = "rtl" ∨ characterCountingDirection t = "ltr" := by
  show (if (countingCounts t).1 > (countingCounts t).2 then "rtl"
      else if (countingCounts t).2 > (countingCounts t).1 then "ltr"
      else firstStrongDirection t) = "rtl" ∨
    (if (countingCounts t).1 > (countingCounts t).2 then "rtl"
      else if (countingCounts t).2 > (countingCounts t).1 then "ltr"
      else firstStrongDirection t) = "ltr"
  by_cases h1 : (countingCounts t).1 > (countingCounts t).2
  · rw [if_pos h1]; left; rfl
  · rw [if_neg h1]
    by_cases h2 : (countingCounts t).2 > (countingCounts t).1
    · rw [if_pos h2]; right; rfl
    · rw [if_neg h2]; exact firstStrongDirection_cases t

lemma weightedDirection_cases (t : List Char) :
    weightedDirection t = "rtl" ∨ weightedDirection t = "ltr" := by
  exact ite_rtl_ltr _

/-- C6, counterexample.  The claim predicts that `classify(T, "first-strong")`
scans the characters of the given text itself, which on `"<b>ا</b>"` finds
the Latin letter `b` first and yields "ltr"; the code strips the HTML-like
tags first and yields "rtl" (the Arabic letter is the only character left). -/
theorem c6_first_strong_counterexample :
    smartDirectionDetection "<b>ا</b>".data "first-strong" = "rtl" ∧
    firstStrongDirection "<b>ا</b>".data = "ltr" ∧
    smartDirectionDetection "<b>ا</b>".data "first-strong" ≠
      firstStrongDirection "<b>ا</b>".data := by
  decide

/-- C6, amended: `classify(text, "first-strong")` first strips HTML-like
tags, collapses whitespace and trims (the `clean_text` step), and only then
scans characters in order for the first strong bidirectional category, with
"ltr" as the default; equivalently it always equals
`firstStrongDirection (cleanText text)`. -/
theorem c6_first_strong_on_clean_text (t : List Char) :
    smartDirectionDetection t "first-strong" = firstStrongDirection (cleanText t) := by
  by_cases h : t = [] ∨ pyStrip t = []
  · unfold smartDirectionDetection
    rw [if_pos h, cleanText_nil_of_empty_or_space h]
    rfl
  · unfold smartDirectionDetection
    rw [if_neg h]
    by_cases h2 : cleanText t = []
    · rw [if_pos h2, h2]; rfl
    · rw [if_neg h2, if_pos rfl]

/-- C7, counterexample.  The text `"a" ++ 8 spaces ++ "ا"` has length 10 and
contains both an Arabic-block character and a strong-LTR Latin character,
yet `classify(T, "auto")` is "ltr" while `classify(T, "weighted")` is "rtl":
the length-10 test of `auto` is applied to the cleaned text (whitespace
collapsed, here of length 3), not to the given text. -/
theorem c7_auto_weighted_counterexample :
    ("a        ا".data).length = 10 ∧
    ("a        ا".data).any isRtlScript = true ∧
    ("a        ا".data).any (fun c => LTR_BIDI.contains (bidi c)) = true ∧
    smartDirectionDetection "a        ا".data "auto" = "ltr" ∧
    smartDirectionDetection "a        ا".data "weighted" = "rtl" := by
  decide

/-- C7, amended: whenever the *cleaned* text (tags stripped, whitespace
collapsed, ends trimmed) has length at least 10 and contains both an
RTL-script character and a strong-LTR character, `classify(T, "auto")`
equals `classify(T, "weighted")`. -/
theorem c7_auto_delegates_to_weighted (t : List Char)
    (h10 : 10 ≤ (cleanText t).length)
    (hr : (cleanText t).any isRtlScript = true)
    (hl : (cleanText t).any (fun c => LTR_BIDI.contains (bidi c)) = true) :
    smartDirectionDetection t "auto" = smartDirectionDetection t "weighted" := by
  have h : ¬ (t = [] ∨ pyStrip t = []) := by
    intro h
    rw [cleanText_nil_of_empty_or_space h] at h10
    simp at h10
  have h2 : ¬ cleanText t = [] := by
    intro h2
    rw [h2] at h10
    simp at h10
  have hL : smartDirectionDetection t "auto" = weightedDirection (cleanText t) := by
    unfold smartDirectionDetection
    rw [if_neg h, if_neg h2,
      if_neg (by decide : ¬ ("auto" : String) = "first-strong"),
      if_neg (by decide : ¬ ("auto" : String) = "counting"),
      if_neg (by decide : ¬ ("auto" : String) = "weighted"),
      if_neg (by omega : ¬ (cleanText t).length < 10),
      if_pos ⟨hr, hl⟩]
  have hR : smartDirectionDetection t "weighted" = weightedDirection (cleanText t) := by
    unfold smartDirectionDetection
    rw [if_neg h, if_neg h2,
      if_neg (by decide : ¬ ("weighted" : String) = "first-strong"),
      if_neg (by decide : ¬ ("weighted" : String) = "counting"),
      if_pos rfl]
  rw [hL, hR]

/-- C7, witness for `c7_auto_delegates_to_weighted` at a concrete mixed
Arabic/Latin text of cleaned length 11. -/
theorem c7_auto_delegates_to_weighted_witness :
    10 ≤ (cleanText "hello ا ا ا".data).length ∧
    (cleanText "hello ا ا ا".data).any isRtlScript = true ∧
    (cleanText "hello ا ا ا".data).any (fun c => LTR_BIDI.contains (bidi c)) = true ∧
    smartDirectionDetection "hello ا ا ا".data "auto" =
      smartDirectionDetection "hello ا ا ا".data "weighted" :=
  ⟨by decide, by decide, by decide,
    c7_auto_delegates_to_weighted "hello ا ا ا".data (by decide) (by decide) (by decide)⟩

/-- C8: for every method string (in particular the four documented ones),
classification of the empty string and of a whitespace-only string returns
"ltr"; the function is total, so no error is raised. -/
theorem c8_empty_and_whitespace_default_ltr (method : String) :
    smartDirectionDetection [] method = "ltr" ∧
    smartDirectionDetection "   ".data method = "ltr" := by
  constructor
  · unfold smartDirectionDetection
    rw [if_pos (Or.inl rfl)]
  · unfold smartDirectionDetection
    rw [if_pos (Or.inr (by decide))]

/-- C10: the classifier is total over its method parameter: for every text
and every method string the result is "rtl" or "ltr" (never an error), and
any method outside the documented enum behaves exactly like "auto". -/
theorem c10_method_totality (text : List Char) (method : String) :
    (smartDirectionDetection text method = "rtl" ∨
      smartDirectionDetection text method = "ltr") ∧
    (method ∉ (["first-strong", "counting", "weighted"] : List String) →
      smartDirectionDetection text method = smartDirectionDetection text "auto") := by
  constructor
  · unfold smartDirectionDetection
    by_cases h : text = [] ∨ pyStrip text = []
    · right; rw [if_pos h]
    · rw [if_neg h]
      by_cases h2 : cleanText text = []
      · right; rw [if_pos h2]
      · rw [if_neg h2]
        by_cases m1 : method = "first-strong"
        · rw [if_pos m1]; exact firstStrongDirection_cases _
        · rw [if_neg m1]
          by_cases m2 : method = "counting"
          · rw [if_pos m2]; exact characterCountingDirection_cases _
          · rw [if_neg m2]
            by_cases m3 : method = "weighted"
            · rw [if_pos m3]; exact weightedDirection_cases _
            · rw [if_neg m3]
              by_cases hlen : (cleanText text).length < 10
              · rw [if_pos hlen]; exact firstStrongDirection_cases _
              · rw [if_neg hlen]
                by_cases hmix : (cleanText text).any isRtlScript = true ∧
                    (cleanText text).any (fun c => LTR_BIDI.contains (bidi c)) = true
                · rw [if_pos hmix]; exact weightedDirection_cases _
                · rw [if_neg hmix]; exact characterCountingDirection_cases _
  · intro hm
    have m1 : method ≠ "first-strong" := fun h => hm (by simp [h])
    have m2 : method ≠ "counting" := fun h => hm (by simp [h])
    have m3 : method ≠ "weighted" := fun h => hm (by simp [h])
    unfold smartDirectionDetection
    by_cases h : text = [] ∨ pyStrip text = []
    · rw [if_pos h, if_pos h]
    · rw [if_neg h, if_neg h]
      by_cases h2 : cleanText text = []
      · rw [if_pos h2, if_pos h2]
      · rw [if_neg h2, if_neg h2, if_neg m1, if_neg m2, if_neg m3,
          if_neg (by decide : ¬ ("auto" : String) = "first-strong"),
          if_neg (by decide : ¬ ("auto" : String) = "counting"),
          if_neg (by decide : ¬ ("auto" : String) = "weighted")]

/-- C10, witness: an undocumented method string is accepted, returns a
direction, and coincides with "auto". -/
theorem c10_method_totality_witness :
    ("bogus" : String) ∉ (["first-strong", "counting", "weighted"] : List String) ∧
    (smartDirectionDetection "hello".data "bogus" = "rtl" ∨
      smartDirectionDetection "hello".data "bogus" = "ltr") ∧
    smartDirectionDetection "hello".data "bogus" =
      smartDirectionDetection "hello".data "auto" :=
  ⟨by decide, (c10_method_totality "hello".data "bogus").1,
    (c10_method_totality "hello".data "bogus").2 (by decide)⟩

/-- C1, counterexample.  In `scrape_claude_share` the fingerprint is
generated once, before the retry loop; with the security challenge
unresolved on every attempt, all three attempts reuse fingerprint 0 and
only one fingerprint generation happens, not `max_attempts = 3`. -/
theorem c1_fingerprint_counterexample :
    (scrapeClaudeShareRetry (fun _ _ => false)).attemptFps = [0, 0, 0] ∧
    (scrapeClaudeShareRetry (fun _ _ => false)).generations = 1 ∧
    (scrapeClaudeShareRetry (fun _ _ => false)).generations ≠ 3 ∧
    (scrapeClaudeShareRetry (fun _ _ => false)).outcome = .terminalError := by
  decide

/-- C1, amended: in `scrape_claude_share_advanced` every attempt generates
a fresh fingerprint, so an always-unresolved challenge yields exactly 3
generations, the pairwise-distinct fingerprints 0, 1, 2 on the three
attempts, and one terminal error; in `scrape_claude_share` the single
fingerprint generated before the loop is reused by all three attempts, and
an always-unresolved challenge still ends in one terminal error (never a
silent empty success), with exactly one generation. -/
theorem c1_fresh_fingerprints (resolve : Nat → Nat → Bool)
    (hfail : ∀ i fp, resolve i fp = false) :
    scrapeClaudeShareAdvancedRetry resolve 3 = ⟨3, [0, 1, 2], .terminalError⟩ ∧
    scrapeClaudeShareRetry resolve = ⟨1, [0, 0, 0], .terminalError⟩ := by
  constructor
  · simp [scrapeClaudeShareAdvancedRetry, advLoop, hfail]
  · simp [scrapeClaudeShareRetry, bfLoop, hfail]

/-- C1, witness for `c1_fresh_fingerprints` with the always-failing
challenge oracle. -/
theorem c1_fresh_fingerprints_witness :
    (∀ i fp, (fun _ _ => false : Nat → Nat → Bool) i fp = false) ∧
    scrapeClaudeShareAdvancedRetry (fun _ _ => false) 3 = ⟨3, [0, 1, 2], .terminalError⟩ ∧
    scrapeClaudeShareRetry (fun _ _ => false) = ⟨1, [0, 0, 0], .terminalError⟩ :=
  ⟨fun _ _ => rfl, (c1_fresh_fingerprints _ (fun _ _ => rfl)).1,
    (c1_fresh_fingerprints _ (fun _ _ => rfl)).2⟩

/-- C5, counterexample.  A navigation status of 404 (or 500) is ≥ 400 but
does not abort the attempt: in both scrapers the attempt continues into
challenge detection; only 403 aborts. -/
theorem c5_status_counterexample :
    bfAfterNavigation (some 404) = .challengeCheck ∧
    ssAfterNavigation (some 500) = .challengeCheck ∧
    404 ≥ 400 ∧ 500 ≥ 400 := by
  decide

/-- C5, amended: an attempt of either Claude scraper fails immediately at
the navigation-status check exactly when the response status is 403; every
other status (including 4xx and 5xx statuses other than 403) lets the same
attempt proceed to challenge detection. -/
theorem c5_only_403_aborts (status : Option Nat) :
    (bfAfterNavigation status = .abortAttempt ↔ status = some 403) ∧
    (ssAfterNavigation status = .abortAttempt ↔ status = some 403) := by
  cases status with
  | none => simp [bfAfterNavigation, ssAfterNavigation]
  | some s =>
    by_cases h4 : s ≥ 400
    · by_cases h3 : s = 403 <;>
        simp [bfAfterNavigation, ssAfterNavigation, h4, h3]
    · have h3 : s ≠ 403 := by omega
      simp [bfAfterNavigation, ssAfterNavigation, h4, h3]

/-- C4, counterexample.  The URL `https://claude.ai/share/` has a
zero-length identifier, so it does not match the accepted shapes, yet the
Claude entry point accepts it (its check is prefix-only) and proceeds to
fingerprint generation and browser launch instead of raising. -/
theorem c4_url_counterexample :
    specAcceptedShape "https://claude.ai/share/".data = false ∧
    validClaudeLink "https://claude.ai/share/".data = true ∧
    scrapeClaudeShareEntry "https://claude.ai/share/".data = .ok () :=
  ⟨by decide, by decide, rfl⟩

/-- C4, amended: `scrape_share` proceeds past validation exactly on URLs
of the shape ChatGPT-prefix plus a non-empty identifier whose first
character is not a newline (so every malformed ChatGPT URL raises
immediately, before any browser work), while `scrape_claude_share`
proceeds exactly on URLs having `https://claude.ai/share/` as a prefix,
accepting even a zero-length identifier. -/
theorem c4_url_validation (link : List Char) :
    (scrapeShareEntry link = .ok () ↔
      ∃ p ∈ ([gptPrefix1, gptPrefix2] : List (List Char)),
        ∃ rest, link = p ++ rest ∧ rest ≠ [] ∧ rest.head? ≠ some '\n') ∧
    (scrapeClaudeShareEntry link = .ok () ↔ ∃ rest, link = claudePrefix ++ rest) := by
  have hgpt : validChatGPTLink link = true ↔
      ∃ p ∈ ([gptPrefix1, gptPrefix2] : List (List Char)),
        ∃ rest, link = p ++ rest ∧ rest ≠ [] ∧ rest.head? ≠ some '\n' := by
    unfold validChatGPTLink
    rw [List.any_eq_true]
    constructor
    · rintro ⟨p, hp, hcond⟩
      rw [Bool.and_eq_true] at hcond
      obtain ⟨hpre, hmatch⟩ := hcond
      obtain ⟨t, ht⟩ := List.isPrefixOf_iff_prefix.mp hpre
      have hdrop : link.drop p.length = t := by rw [← ht, List.drop_left]
      rw [hdrop] at hmatch
      cases t with
      | nil => simp at hmatch
      | cons c tl =>
        refine ⟨p, hp, c :: tl, ht.symm, by simp, ?_⟩
        simp only [decide_eq_true_eq] at hmatch
        simpa using hmatch
    · rintro ⟨p, hp, t, ht, hne, hhd⟩
      have hdrop : link.drop p.length = t := by rw [ht, List.drop_left]
      refine ⟨p, hp, ?_⟩
      rw [Bool.and_eq_true]
      refine ⟨List.isPrefixOf_iff_prefix.mpr ⟨t, ht.symm⟩, ?_⟩
      rw [hdrop]
      cases t with
      | nil => exact absurd rfl hne
      | cons c tl =>
        simp only [decide_eq_true_eq]
        simpa using hhd
  have hcl : validClaudeLink link = true ↔ ∃ rest, link = claudePrefix ++ rest := by
    unfold validClaudeLink
    rw [List.isPrefixOf_iff_prefix]
    constructor
    · rintro ⟨t, ht⟩; exact ⟨t, ht.symm⟩
    · rintro ⟨t, ht⟩; exact ⟨t, ht.symm⟩
  constructor
  · constructor
    · intro hok
      by_cases hv : validChatGPTLink link = true
      · exact hgpt.mp hv
      · unfold scrapeShareEntry at hok
        rw [if_neg hv] at hok
        exact Except.noConfusion hok
    · intro hex
      unfold scrapeShareEntry
      rw [if_pos (hgpt.mpr hex)]
  · constructor
    · intro hok
      by_cases hv : validClaudeLink link = true
      · exact hcl.mp hv
      · unfold scrapeClaudeShareEntry at hok
        rw [if_neg hv] at hok
        exact Except.noConfusion hok
    · intro hex
      unfold scrapeClaudeShareEntry
      rw [if_pos (hcl.mpr hex)]

/-- C3, counterexample.  `detect_security_challenge` in the stealth scraper
has no benign-indicator suppression: a page containing both cookie-consent
phrasing and `Ray ID:` is reported as challenged, although the claim says
detection is true exactly when a security indicator is present AND no
benign indicator is present. -/
theorem c3_detection_counterexample :
    (detectSecurityChallenge "We use cookies here. Ray ID: 85a3f9".data
        (some 1000) (some 0)).1 = true ∧
    (∃ q ∈ normalPopups, q <:+: "We use cookies here. Ray ID: 85a3f9".data) := by
  refine ⟨by decide, by decide⟩

/-- C3, amended: in `scrape_claude_share` the detection flag is true
exactly when some security indicator is a substring of the page content
and no benign cookie indicator is (so cookie-only content yields false and
`Ray ID:` content with no cookie text yields true); the stealth scraper
function `detect_security_challenge` instead has no benign suppression and
additionally flags pages whose rendered text is shorter than 150
characters, so it reports a short cookie-only page as challenged. -/
theorem c3_detection_asymmetry :
    (∀ content : List Char,
      challengeDetectedBF content = true ↔
        ((∃ s ∈ securityIndicatorsBF, s <:+: content) ∧
          ¬ ∃ q ∈ normalPopups, q <:+: content)) ∧
    challengeDetectedBF "We use cookies and you can Accept All Cookies".data = false ∧
    challengeDetectedBF "Checking your connection. Ray ID: 7a2b".data = true ∧
    (detectSecurityChallenge "We use cookies".data (some 14) (some 0)).1 = true := by
  refine ⟨?_, by decide, by decide, by decide⟩
  intro content
  unfold challengeDetectedBF hasSecurityIndicators hasNormalPopups
  simp [List.any_eq_true]

/-- C2, counterexample.  Tier 2 of `extract_claude_messages` in the
stealth scraper performs no re-sort: on a document whose assistant message
precedes its user message, the extracted sequence is all user messages
followed by all assistant messages, in query-arrival order, so the
document positions are not strictly increasing. -/
theorem c2_order_counterexample :
    (ssStrategy2
        [⟨0, 1, CRole.assistant, "Hello from Claude here".data⟩,
         ⟨1, 2, CRole.user, "What is the plan".data⟩]).map CElem.docPos = [1, 0] ∧
    (ssStrategy2
        [⟨0, 1, CRole.assistant, "Hello from Claude here".data⟩,
         ⟨1, 2, CRole.user, "What is the plan".data⟩]).map CElem.role =
      [CRole.user, CRole.assistant] ∧
    ¬ (ssStrategy2
        [⟨0, 1, CRole.assistant, "Hello from Claude here".data⟩,
         ⟨1, 2, CRole.user, "What is the plan".data⟩]).Pairwise
      (fun a b => a.docPos < b.docPos) := by
  refine ⟨by decide, by decide, by decide⟩

/-- C2, amended: the re-sort into document order happens in the tier 2 of
`scrape_claude_share` (`browser_fetch.py`), which sorts the merged queries
by parser source line: whenever the source lines of the queried elements
order consistently with their document positions, the extracted sequence
is strictly increasing in document position (the stealth scraper tier 2
has no such re-sort, per the counterexample). -/
theorem c2_sorted_merge (doc : List CElem)
    (hdoc : doc.Pairwise (fun a b => a.docPos < b.docPos))
    (hmono : ∀ a ∈ doc, ∀ b ∈ doc,
      (a.sourceline < b.sourceline ↔ a.docPos < b.docPos)) :
    (bfStrategy2 doc).Pairwise (fun a b => a.docPos < b.docPos) := by
  have hperm0 : List.Perm
      (doc.filter (fun e => decide (e.role = CRole.user)) ++
        doc.filter (fun e => decide (e.role = CRole.assistant))) doc := by
    have h := List.filter_append_perm (fun e => decide (e.role = CRole.user)) doc
    have heq : (fun e : CElem => decide (e.role = CRole.assistant)) =
        (fun e : CElem => !(decide (e.role = CRole.user))) := by
      funext e
      cases he : e.role <;> simp [he]
    rw [heq]
    exact h
  have hperm : List.Perm
      (List.insertionSort bySourceline
        (doc.filter (fun e => decide (e.role = CRole.user)) ++
          doc.filter (fun e => decide (e.role = CRole.assistant)))) doc :=
    (List.perm_insertionSort _ _).trans hperm0
  have hsorted : (List.insertionSort bySourceline
      (doc.filter (fun e => decide (e.role = CRole.user)) ++
        doc.filter (fun e => decide (e.role = CRole.assistant)))).Pairwise bySourceline :=
    List.sorted_insertionSort _ _
  have hne : doc.Pairwise (fun a b => a.sourceline ≠ b.sourceline) := by
    refine hdoc.imp_of_mem ?_
    intro a b ha hb hab heq2
    have hlt := (hmono a ha b hb).mpr hab
    omega
  have hne2 : (List.insertionSort bySourceline
      (doc.filter (fun e => decide (e.role = CRole.user)) ++
        doc.filter (fun e => decide (e.role = CRole.assistant)))).Pairwise
      (fun a b => a.sourceline ≠ b.sourceline) :=
    (hperm.pairwise_iff (fun h => Ne.symm h)).mpr hne
  have hstrict := (hsorted.and hne2).imp
    (fun h => lt_of_le_of_ne h.1 h.2)
  have hpos : (List.insertionSort bySourceline
      (doc.filter (fun e => decide (e.role = CRole.user)) ++
        doc.filter (fun e => decide (e.role = CRole.assistant)))).Pairwise
      (fun a b => a.docPos < b.docPos) := by
    refine hstrict.imp_of_mem ?_
    intro a b ha hb h
    exact (hmono a (hperm.subset ha) b (hperm.subset hb)).mp h
  exact hpos.filter _

/-- C2, witness for `c2_sorted_merge` on a two-element document (assistant
element first) with source lines consistent with document order. -/
theorem c2_sorted_merge_witness :
    ([⟨0, 4, CRole.assistant, "Claude reply body".data⟩,
      ⟨1, 9, CRole.user, "User question body".data⟩] : List CElem).Pairwise
        (fun a b => a.docPos < b.docPos) ∧
    (∀ a ∈ ([⟨0, 4, CRole.assistant, "Claude reply body".data⟩,
        ⟨1, 9, CRole.user, "User question body".data⟩] : List CElem),
      ∀ b ∈ ([⟨0, 4, CRole.assistant, "Claude reply body".data⟩,
        ⟨1, 9, CRole.user, "User question body".data⟩] : List CElem),
      (a.sourceline < b.sourceline ↔ a.docPos < b.docPos)) ∧
    (bfStrategy2
        [⟨0, 4, CRole.assistant, "Claude reply body".data⟩,
         ⟨1, 9, CRole.user, "User question body".data⟩]).Pairwise
      (fun a b => a.docPos < b.docPos) :=
  ⟨by decide, by decide, c2_sorted_merge _ (by decide) (by decide)⟩

/-! Infix machinery: a newline-free pattern occurring in `a ++ '\n' :: b`
occurs in `a` or in `b`; this splits the assembled Markdown at its line
breaks. -/

lemma noInfix_nil {p : List Char} (hne : p ≠ []) : ¬ p <:+: ([] : List Char) := by
  intro h
  obtain ⟨s, t, hst⟩ := h
  simp only [List.append_eq_nil] at hst
  exact hne hst.1.2

lemma infix_split_nl {p a b : List Char} (hp : '\n' ∉ p)
    (h : p <:+: a ++ '\n' :: b) : p <:+: a ∨ p <:+: b := by
  obtain ⟨u, v, huv⟩ := h
  rcases le_or_lt (u.length + p.length) a.length with hle | hgt
  · left
    have hup : (u ++ p) <+: (a ++ '\n' :: b) :=
      ⟨v, by simpa [List.append_assoc] using huv⟩
    have ha : a <+: (a ++ '\n' :: b) := ⟨'\n' :: b, rfl⟩
    have h1 : (u ++ p) <+: a :=
      List.prefix_of_prefix_length_le hup ha (by simpa using hle)
    exact (List.suffix_append u p).isInfix.trans h1.isInfix
  · rcases lt_or_ge u.length (a.length + 1) with hu | hu
    · exfalso
      have hu' : u.length ≤ a.length := Nat.lt_succ_iff.mp hu
      have hupre : u <+: (a ++ '\n' :: b) :=
        ⟨p ++ v, by simpa [List.append_assoc] using huv⟩
      have ha : a <+: (a ++ '\n' :: b) := ⟨'\n' :: b, rfl⟩
      have h6 : u <+: a := List.prefix_of_prefix_length_le hupre ha hu'
      obtain ⟨w, hw⟩ := h6
      have h7 : p ++ v = w ++ '\n' :: b := by
        have h8 : u ++ (p ++ v) = u ++ (w ++ '\n' :: b) := by
          rw [← List.append_assoc, huv, ← hw, List.append_assoc]
        exact List.append_cancel_left h8
      have hwlen : w.length < p.length := by
        have hal : a.length = u.length + w.length := by rw [← hw]; simp
        omega
      have h9 : (w ++ ['\n']) <+: (p ++ v) :=
        ⟨b, by rw [List.append_assoc]; simpa using h7.symm⟩
      have h10 : (w ++ ['\n']) <+: p :=
        List.prefix_of_prefix_length_le h9 (List.prefix_append p v)
          (by simp; omega)
      exact hp (h10.subset (by simp))
    · right
      have h4 : u <+: (a ++ '\n' :: b) :=
        ⟨p ++ v, by simpa [List.append_assoc] using huv⟩
      have h5 : (a ++ ['\n']) <+: (a ++ '\n' :: b) := ⟨b, by simp⟩
      have h3 : (a ++ ['\n']) <+: u :=
        List.prefix_of_prefix_length_le h5 h4 (by simp; omega)
      obtain ⟨w, hw⟩ := h3
      refine ⟨w, v, ?_⟩
      have h11 : a ++ '\n' :: (w ++ (p ++ v)) = a ++ '\n' :: b := by
        rw [← huv, ← hw]
        simp [List.append_assoc]
      have h12 : '\n' :: (w ++ (p ++ v)) = '\n' :: b :=
        List.append_cancel_left h11
      injection h12 with hhd h13
      rw [List.append_assoc]
      exact h13

lemma noInfix_append_nl {p a b : List Char} (hp : '\n' ∉ p)
    (h1 : ¬ p <:+: a) (h2 : ¬ p <:+: b) : ¬ p <:+: a ++ '\n' :: b :=
  fun h => (infix_split_nl hp h).elim h1 h2

lemma noInfix_cons_nl {p b : List Char} (hne : p ≠ []) (hp : '\n' ∉ p)
    (h2 : ¬ p <:+: b) : ¬ p <:+: '\n' :: b := by
  show ¬ p <:+: [] ++ '\n' :: b
  exact noInfix_append_nl hp (noInfix_nil hne) h2

lemma noInfix_splice_nl {p x y z : List Char} (hp : '\n' ∉ p)
    (h1 : ¬ p <:+: (x ++ y ++ ['*'])) (h2 : ¬ p <:+: z) :
    ¬ p <:+: x ++ (y ++ '*' :: '\n' :: z) := by
  have e : x ++ (y ++ '*' :: '\n' :: z) = (x ++ y ++ ['*']) ++ '\n' :: z := by
    simp [List.append_assoc]
  rw [e]
  exact noInfix_append_nl hp h1 h2

lemma noInfix_plainBlocks {p : List Char} (hne : p ≠ []) (hp : '\n' ∉ p)
    (hdash : ¬ p <:+: ['-', '-', '-']) (msgs : List Msg)
    (h : ∀ m ∈ msgs, ¬ p <:+: m.content) :
    ¬ p <:+: joinNl (msgs.map (fun m => m.content ++ "\n\n---\n".data)) := by
  induction msgs with
  | nil => simpa [joinNl] using noInfix_nil hne
  | cons c cs ih =>
    have hc := h c (List.mem_cons_self c cs)
    cases cs with
    | nil =>
      have e : joinNl ([c].map (fun m => m.content ++ "\n\n---\n".data)) =
          c.content ++ '\n' :: ('\n' :: (['-', '-', '-'] ++ '\n' :: [])) := by
        show c.content ++ "\n\n---\n".data = _
        rfl
      rw [e]
      exact noInfix_append_nl hp hc
        (noInfix_cons_nl hne hp
          (noInfix_append_nl hp hdash (noInfix_nil hne)))
    | cons c' cs' =>
      have ih' := ih fun d hd => h d (List.mem_cons_of_mem c hd)
      have e : joinNl ((c :: c' :: cs').map (fun m => m.content ++ "\n\n---\n".data)) =
          c.content ++ '\n' :: ('\n' :: (['-', '-', '-'] ++ '\n' :: ('\n' ::
            joinNl ((c' :: cs').map (fun m => m.content ++ "\n\n---\n".data))))) := by
        show (c.content ++ "\n\n---\n".data) ++ '\n' ::
            joinNl ((c' :: cs').map (fun m => m.content ++ "\n\n---\n".data)) = _
        rw [List.append_assoc]
        rfl
      rw [e]
      exact noInfix_append_nl hp hc
        (noInfix_cons_nl hne hp
          (noInfix_append_nl hp hdash (noInfix_cons_nl hne hp ih')))

/-- With both options off, the Markdown output decomposed at its line
breaks: the metadata lines followed by the raw per-message blocks. -/
lemma scrapeClaudeShareMarkdown_plain_decomp (msgs : List Msg) (dm : String)
    (link ts : List Char) :
    scrapeClaudeShareMarkdown msgs false false dm link ts =
      "# Claude Conversation".data ++ '\n' :: ('\n' ::
        (("*Downloaded from: ".data ++ (link ++ '*' :: '\n' ::
          ("*Generated on: ".data ++ (ts ++ '*' :: '\n' ::
            ("*Options: (Plain text mode)*".data ++ '\n' :: ('\n' ::
              (['-', '-', '-'] ++ '\n' :: ('\n' ::
                joinNl (msgs.map (fun m => m.content ++ "\n\n---\n".data)))))))))))) := by
  unfold scrapeClaudeShareMarkdown claudeMetadata
  simp only [List.append_assoc]
  rfl

lemma noInfix_claudePlain {p : List Char} {msgs : List Msg} {dm : String}
    {link ts : List Char} (hne : p ≠ []) (hp : '\n' ∉ p)
    (h1 : ¬ p <:+: "# Claude Conversation".data)
    (h2 : ¬ p <:+: ("*Downloaded from: ".data ++ link ++ ['*']))
    (h3 : ¬ p <:+: ("*Generated on: ".data ++ ts ++ ['*']))
    (h4 : ¬ p <:+: "*Options: (Plain text mode)*".data)
    (hdash : ¬ p <:+: ['-', '-', '-'])
    (hmsg : ∀ m ∈ msgs, ¬ p <:+: m.content) :
    ¬ p <:+: scrapeClaudeShareMarkdown msgs false false dm link ts := by
  rw [scrapeClaudeShareMarkdown_plain_decomp]
  refine noInfix_append_nl hp h1 (noInfix_cons_nl hne hp ?_)
  refine noInfix_splice_nl hp h2 ?_
  refine noInfix_splice_nl hp h3 ?_
  refine noInfix_append_nl hp h4 (noInfix_cons_nl hne hp ?_)
  refine noInfix_append_nl hp hdash (noInfix_cons_nl hne hp ?_)
  exact noInfix_plainBlocks hne hp hdash _ hmsg

/-- The substrings that claim C9 requires to be absent from plain-mode
output: the two direction wrappers and the two speaker labels. -/
def bannedPatterns : List (List Char) :=
  ["dir=\"rtl\"".data, "dir=\"ltr\"".data,
   "🔵 **User:**".data, "🟡 **Claude:**".data]

set_option maxRecDepth 8000 in
/-- C9, counterexample.  With both options off the formatter emits each
message text verbatim, so a successful fetch whose extracted message text
itself contains `dir="rtl"` produces output containing that substring; the
claim quantifies over every successful fetch and is therefore violated. -/
theorem c9_plain_mode_counterexample :
    "dir=\"rtl\"".data <:+:
      scrapeClaudeShareMarkdown [⟨true, "dir=\"rtl\"".data⟩] false false "auto"
        "https://claude.ai/share/abc".data "2025-01-01 00:00:00".data := by
  decide

/-- C9, amended: with `include_direction = false` and
`include_speakers = false` the output is exactly the metadata header
followed by the raw message texts and separators (no `<div dir=...>`
wrapper and no speaker-label line is added); consequently, provided no
extracted message text and neither metadata line built from the link and
timestamp contains a `dir="rtl"`/`dir="ltr"` wrapper or a speaker label as
a substring, the returned Markdown contains none of them. -/
theorem c9_plain_mode (msgs : List Msg) (dm : String) (link ts : List Char)
    (hlink : ∀ p ∈ bannedPatterns, ¬ p <:+: ("*Downloaded from: ".data ++ link ++ ['*']))
    (hts : ∀ p ∈ bannedPatterns, ¬ p <:+: ("*Generated on: ".data ++ ts ++ ['*']))
    (hmsg : ∀ m ∈ msgs, ∀ p ∈ bannedPatterns, ¬ p <:+: m.content) :
    scrapeClaudeShareMarkdown msgs false false dm link ts =
      claudeMetadata link ts false false dm ++
        joinNl (msgs.map (fun m => m.content ++ "\n\n---\n".data)) ∧
    ∀ p ∈ bannedPatterns, ¬ p <:+: scrapeClaudeShareMarkdown msgs false false dm link ts := by
  constructor
  · rfl
  · intro p hp
    have hfix : '\n' ∉ p ∧ p ≠ [] ∧
        ¬ p <:+: "# Claude Conversation".data ∧
        ¬ p <:+: "*Options: (Plain text mode)*".data ∧
        ¬ p <:+: ['-', '-', '-'] := by
      simp only [bannedPatterns, List.mem_cons, List.not_mem_nil, or_false] at hp
      rcases hp with rfl | rfl | rfl | rfl <;>
        exact ⟨by decide, by decide, by decide, by decide, by decide⟩
    exact noInfix_claudePlain hfix.2.1 hfix.1 hfix.2.2.1 (hlink p hp)
      (hts p hp) hfix.2.2.2.1 hfix.2.2.2.2 (fun m hm => hmsg m hm p hp)

set_option maxRecDepth 8000 in
/-- C9, witness for `c9_plain_mode` at a one-message conversation. -/
theorem c9_plain_mode_witness :
    (∀ p ∈ bannedPatterns,
      ¬ p <:+: ("*Downloaded from: ".data ++ "https://claude.ai/share/abc".data ++ ['*'])) ∧
    (∀ p ∈ bannedPatterns,
      ¬ p <:+: ("*Generated on: ".data ++ "2025-01-01 00:00:00".data ++ ['*'])) ∧
    (∀ m ∈ ([⟨true, "hi there".data⟩] : List Msg),
      ∀ p ∈ bannedPatterns, ¬ p <:+: m.content) ∧
    (scrapeClaudeShareMarkdown [⟨true, "hi there".data⟩] false false "auto"
        "https://claude.ai/share/abc".data "2025-01-01 00:00:00".data =
      claudeMetadata "https://claude.ai/share/abc".data "2025-01-01 00:00:00".data
          false false "auto" ++
        joinNl (([⟨true, "hi there".data⟩] : List Msg).map
          (fun m => m.content ++ "\n\n---\n".data)) ∧
    ∀ p ∈ bannedPatterns,
      ¬ p <:+: scrapeClaudeShareMarkdown [⟨true, "hi there".data⟩] false false "auto"
        "https://claude.ai/share/abc".data "2025-01-01 00:00:00".data) :=
  ⟨by decide, by decide, by decide,
    c9_plain_mode [⟨true, "hi there".data⟩] "auto"
      "https://claude.ai/share/abc".data "2025-01-01 00:00:00".data
      (by decide) (by decide) (by decide)⟩

/-- C3, witness: `c3_detection_asymmetry` instantiated at a concrete page
content. -/
theorem c3_detection_asymmetry_witness :
    challengeDetectedBF "Just a moment".data = true ↔
      ((∃ s ∈ securityIndicatorsBF, s <:+: "Just a moment".data) ∧
        ¬ ∃ q ∈ normalPopups, q <:+: "Just a moment".data) :=
  c3_detection_asymmetry.1 "Just a moment".data

/-- C4, witness: `c4_url_validation` instantiated at a concrete URL. -/
theorem c4_url_validation_witness :
    (scrapeShareEntry "https://chatgpt.com/share/abc".data = .ok () ↔
      ∃ p ∈ ([gptPrefix1, gptPrefix2] : List (List Char)),
        ∃ rest, "https://chatgpt.com/share/abc".data = p ++ rest ∧
          rest ≠ [] ∧ rest.head? ≠ some '\n') ∧
    (scrapeClaudeShareEntry "https://chatgpt.com/share/abc".data = .ok () ↔
      ∃ rest, "https://chatgpt.com/share/abc".data = claudePrefix ++ rest) :=
  c4_url_validation "https://chatgpt.com/share/abc".data

/-- C5, witness: `c5_only_403_aborts` instantiated at status 403. -/
theorem c5_only_403_aborts_witness :
    (bfAfterNavigation (some 403) = .abortAttempt ↔ some 403 = some 403) ∧
    (ssAfterNavigation (some 403) = .abortAttempt ↔ some 403 = some 403) :=
  c5_only_403_aborts (some 403)

/-- C6, witness: `c6_first_strong_on_clean_text` instantiated at a concrete
text. -/
theorem c6_first_strong_on_clean_text_witness :
    smartDirectionDetection "abc".data "first-strong" =
      firstStrongDirection (cleanText "abc".data) :=
  c6_first_strong_on_clean_text "abc".data

/-- C8, witness: `c8_empty_and_whitespace_default_ltr` instantiated at the
method "auto". -/
theorem c8_empty_and_whitespace_default_ltr_witness :
    smartDirectionDetection [] "auto" = "ltr" ∧
    smartDirectionDetection "   ".data "auto" = "ltr" :=
  c8_empty_and_whitespace_default_ltr "auto"

end AIChat
